import Mathlib

/-!
Shallow embedding of `src/nasa_tools/nasa_apod.py` (the NASA APOD client).

The Python module defines three dataclasses (`NASAAPOD`, `NASAAPODResponse`,
`ErrorDetails`) and one function `get_nasa_apod` that

  1. builds a query-parameter dict from the caller's options, using Python
     truthiness tests (`if count: ... elif apod_date: ... elif start_date: ...`),
  2. performs one HTTP GET and parses the body as JSON inside a `try` block
     (any exception there becomes an `ErrorDetails` with status 500),
  3. on a non-200 status extracts an error message from the body
     (`json.get("msg") or json.get("error", {}).get("message", "Unknown error")`),
  4. on a 200 status normalizes the body to a list and maps each item to a
     `NASAAPOD` record via `item.get(...)` with per-field defaults.

JSON values as Python sees them after `response.json()` are modelled by
`PyVal` (JSON `null` parses to Python `None`, hence the single `none`
constructor).  Attribute errors raised by calling `.get` on a non-dict value
are modelled by the `Except PyExn` monad: code after the `try` block is not
protected, so such an exception escapes `get_nasa_apod`.
-/

set_option autoImplicit false

namespace NasaApod

/-- A Python runtime value as produced by `response.json()`: JSON `null`
becomes Python `None`, objects become dicts (association lists, first key
wins), arrays become lists. -/
inductive PyVal where
  | none
  | bool (b : Bool)
  | int (n : Int)
  | str (s : String)
  | list (xs : List PyVal)
  | dict (fields : List (String × PyVal))
  deriving Repr

/-- The one Python exception the post-`try` code can raise: calling `.get`
on a value that is not a dict. -/
inductive PyExn where
  | attributeError
  deriving Repr, DecidableEq

/-- Python truthiness (`bool(v)`) on the values `PyVal` models. -/
def PyVal.truthy : PyVal → Bool
  | .none => false
  | .bool b => b
  | .int n => n != 0
  | .str s => s != ""
  | .list xs => !xs.isEmpty
  | .dict fs => !fs.isEmpty

/-- First-match lookup in a Python dict's entry list. -/
def dictLookup (key : String) : List (String × PyVal) → Option PyVal
  | [] => Option.none
  | (k, v) :: rest => if k == key then some v else dictLookup key rest

/-- Python `v.get(key, default)`: succeeds on dicts, raises `AttributeError`
on anything else.  `v.get(key)` is `v.get(key, None)`. -/
def PyVal.get (v : PyVal) (key : String) (default : PyVal) : Except PyExn PyVal :=
  match v with
  | .dict fs => .ok ((dictLookup key fs).getD default)
  | _ => .error .attributeError

/-- Python `v == "s"` where `v` is an arbitrary runtime value: true exactly
when `v` is the string `s` (no other `PyVal` compares equal to a string). -/
def PyVal.eqPyStr (v : PyVal) (s : String) : Bool :=
  match v with
  | .str t => t == s
  | _ => false

/-- `True` exactly on the `none` value (Python `v is None`). -/
def PyVal.isNone : PyVal → Bool
  | .none => true
  | _ => false

/-- A value placed in the outbound `params` dict: the source inserts the
api key and dates as strings, `count` as an int and `thumbs` as a bool. -/
inductive ParamValue where
  | str (s : String)
  | int (n : Int)
  | bool (b : Bool)
  deriving Repr, DecidableEq

/-- `True` exactly on dict values. -/
def PyVal.isDict : PyVal → Bool
  | .dict _ => true
  | _ => false

/-- The caller-supplied arguments of `get_nasa_apod` (its keyword
parameters, with `api_key` already resolved to a string). -/
structure QueryOptions where
  api_key : String
  apod_date : Option String
  start_date : Option String
  end_date : Option String
  count : Option Int
  thumbs : Bool
  deriving Repr

/-- Python truthiness of an `Optional[int]` argument (`None` and `0` are
falsy). -/
def pyTruthyOptInt : Option Int → Bool
  | Option.none => false
  | some n => n != 0

/-- Python truthiness of an `Optional[str]` argument (`None` and `""` are
falsy). -/
def pyTruthyOptStr : Option String → Bool
  | Option.none => false
  | some s => s != ""

/-- The `params` dict built at the top of `get_nasa_apod`:
`{"api_key": ..., "thumbs": ...}` followed by the
`if count: / elif apod_date: / elif start_date:` chain. -/
def get_nasa_apod_params (opts : QueryOptions) : List (String × ParamValue) :=
  [("api_key", ParamValue.str opts.api_key), ("thumbs", ParamValue.bool opts.thumbs)]
  ++ (if pyTruthyOptInt opts.count then
        [("count", ParamValue.int (opts.count.getD 0))]
      else if pyTruthyOptStr opts.apod_date then
        [("date", ParamValue.str (opts.apod_date.getD ""))]
      else if pyTruthyOptStr opts.start_date then
        [("start_date", ParamValue.str (opts.start_date.getD ""))]
        ++ (if pyTruthyOptStr opts.end_date then
              [("end_date", ParamValue.str (opts.end_date.getD ""))]
            else [])
      else [])

/-- Whether the outbound parameter dict contains `key`. -/
def hasKey (key : String) (ps : List (String × ParamValue)) : Bool :=
  ps.any (fun p => p.1 == key)

/-- The value stored under `key` in the parameter dict, if any. -/
def getParam (key : String) : List (String × ParamValue) → Option ParamValue
  | [] => Option.none
  | (k, v) :: rest => if k == key then some v else getParam key rest

/-- The `NASAAPOD` dataclass.  Field values are kept as the Python runtime
values the mapper stores (a missing optional field is the `none` value). -/
structure NASAAPOD where
  apod_title : PyVal
  explanation : PyVal
  date : PyVal
  multimedia_link : PyVal
  hd_multimedia_link : PyVal
  video_thumbnail_url : PyVal
  copyright_person_name : PyVal
  deriving Repr

/-- The `NASAAPODResponse` dataclass: an ordered list of entries. -/
structure NASAAPODResponse where
  nasa_apods : List NASAAPOD
  deriving Repr

/-- The `ErrorDetails` dataclass.  The message is whatever Python value the
extraction produced (the source does not coerce it to `str`). -/
structure ErrorDetails where
  status_code : Nat
  message : PyVal
  deriving Repr

/-- The declared return type of `get_nasa_apod`:
`Union[NASAAPODResponse, ErrorDetails]`. -/
inductive APODResult where
  | success (r : NASAAPODResponse)
  | failure (e : ErrorDetails)
  deriving Repr

/-- `http.HTTPStatus.OK`. -/
def HTTP_OK : Nat := 200

/-- `http.HTTPStatus.INTERNAL_SERVER_ERROR`, the sentinel used for the
transport/parse failure path. -/
def INTERNAL_SERVER_ERROR : Nat := 500

/-- The outcome of `requests.get(...)` followed by `api_response.json()`:
either some exception was raised inside the `try` block (`exn` carries
`str(e)`), or a status code and a parsed JSON body were obtained. -/
inductive FetchOutcome where
  | exn (e : String)
  | resp (status_code : Nat) (body : PyVal)

/-- The loop body of `get_nasa_apod`: one `NASAAPOD(...)` construction from
a raw item, with every field fetched by `item.get`. -/
def mapItem (item : PyVal) : Except PyExn NASAAPOD := do
  let m_type ← item.get "media_type" .none
  let title ← item.get "title" (.str "Untitled")
  let explanationV ← item.get "explanation" (.str "")
  let dateV ← item.get "date" (.str "")
  let urlV ← item.get "url" (.str "")
  let copyrightV ← item.get "copyright" .none
  let hdurlV ← item.get "hdurl" .none
  let thumbV ← item.get "thumbnail_url" .none
  pure {
    apod_title := title
    explanation := explanationV
    date := dateV
    multimedia_link := urlV
    hd_multimedia_link := if m_type.eqPyStr "image" then hdurlV else .none
    video_thumbnail_url := if m_type.eqPyStr "video" then thumbV else .none
    copyright_person_name := copyrightV }

/-- The `for item in raw_data_list` loop: maps items in order, propagating
the first `AttributeError`. -/
def mapItems : List PyVal → Except PyExn (List NASAAPOD)
  | [] => .ok []
  | item :: rest => do
      let a ← mapItem item
      let tail ← mapItems rest
      pure (a :: tail)

/-- The expression
`json_response.get("msg") or json_response.get("error", {}).get("message", "Unknown error")`
run on the parsed body (the second operand of `or` is only evaluated when
the first is falsy, exactly as in Python). -/
def extract_error_message (json_response : PyVal) : Except PyExn PyVal := do
  let msgVal ← json_response.get "msg" .none
  if msgVal.truthy then
    pure msgVal
  else do
    let errVal ← json_response.get "error" (.dict [])
    errVal.get "message" (.str "Unknown error")

/-- `raw_data_list = json_response if isinstance(json_response, list) else [json_response]`. -/
def raw_data_list (json_response : PyVal) : List PyVal :=
  match json_response with
  | .list xs => xs
  | other => [other]

/-- The normalization plus the mapping loop on a 200 body. -/
def normalize_and_map (json_response : PyVal) : Except PyExn APODResult := do
  let apods ← mapItems (raw_data_list json_response)
  pure (.success ⟨apods⟩)

/-- Everything `get_nasa_apod` does after the `try` block, given the parsed
status code and JSON body:
the non-200 error-message extraction, and the 200 normalize-and-map path. -/
def handle_response (status_code : Nat) (json_response : PyVal) :
    Except PyExn APODResult :=
  if status_code ≠ HTTP_OK then do
    let m ← extract_error_message json_response
    pure (.failure ⟨status_code, m⟩)
  else
    normalize_and_map json_response

/-- The whole of `get_nasa_apod`: build `params`, consult the network
(modelled as an oracle from the sent parameters to a `FetchOutcome`), turn
a `try`-block exception into the 500 `ErrorDetails`, otherwise run the
response handling.  A `.error` result is an uncaught Python exception
escaping the function. -/
def get_nasa_apod (opts : QueryOptions)
    (net : List (String × ParamValue) → FetchOutcome) : Except PyExn APODResult :=
  match net (get_nasa_apod_params opts) with
  | .exn e =>
      .ok (.failure ⟨INTERNAL_SERVER_ERROR,
        .str ("Failed to connect or parse JSON: " ++ e)⟩)
  | .resp status body => handle_response status body

/-- The record `mapItem` builds from a dict item, written out field by
field (used to state what the mapper does on well-formed items). -/
def mapDictItem (fs : List (String × PyVal)) : NASAAPOD where
  apod_title := (dictLookup "title" fs).getD (.str "Untitled")
  explanation := (dictLookup "explanation" fs).getD (.str "")
  date := (dictLookup "date" fs).getD (.str "")
  multimedia_link := (dictLookup "url" fs).getD (.str "")
  hd_multimedia_link :=
    if ((dictLookup "media_type" fs).getD .none).eqPyStr "image"
    then (dictLookup "hdurl" fs).getD .none else .none
  video_thumbnail_url :=
    if ((dictLookup "media_type" fs).getD .none).eqPyStr "video"
    then (dictLookup "thumbnail_url" fs).getD .none else .none
  copyright_person_name := (dictLookup "copyright" fs).getD .none

/-- The body shapes on which the post-parse code never calls `.get` on a
non-dict value (so no `AttributeError` can escape):
on 200 the body must be a dict or a list of dicts; on any other status the
body must be a dict whose `msg` entry is truthy, or else whose `error`
entry is absent or itself a dict. -/
def outcomeWellShaped : FetchOutcome → Bool
  | .exn _ => true
  | .resp status body =>
    if status = HTTP_OK then
      match body with
      | .list xs => xs.all PyVal.isDict
      | b => b.isDict
    else
      match body with
      | .dict fs =>
        (match dictLookup "msg" fs with
         | some v => v.truthy
         | Option.none => false)
        || (match dictLookup "error" fs with
            | some (.dict _) => true
            | Option.none => true
            | some _ => false)
      | _ => false

/-- No two of the mode keys `count`, `date`, `start_date`/`end_date` ever
appear together in the outbound parameter dict. -/
def ParamModesExclusive : Prop :=
  ∀ o : QueryOptions,
    ¬(hasKey "count" (get_nasa_apod_params o) = true
        ∧ hasKey "date" (get_nasa_apod_params o) = true) ∧
    ¬(hasKey "count" (get_nasa_apod_params o) = true
        ∧ hasKey "start_date" (get_nasa_apod_params o) = true) ∧
    ¬(hasKey "count" (get_nasa_apod_params o) = true
        ∧ hasKey "end_date" (get_nasa_apod_params o) = true) ∧
    ¬(hasKey "date" (get_nasa_apod_params o) = true
        ∧ hasKey "start_date" (get_nasa_apod_params o) = true) ∧
    ¬(hasKey "date" (get_nasa_apod_params o) = true
        ∧ hasKey "end_date" (get_nasa_apod_params o) = true)

/-- The per-status error-message contract of the non-200 path, on a dict
body with entries `fs`: the result is a failure carrying the upstream
status code, and the message is the `msg` entry when that is truthy, else
the `error.message` entry when `error` is a dict, else `"Unknown error"`
(also when `error` is absent). -/
def ErrorShapeContract (status : Nat) (fs : List (String × PyVal))
    (result : Except PyExn APODResult) : Prop :=
  (((dictLookup "msg" fs).getD .none).truthy = true →
    result = .ok (.failure ⟨status, (dictLookup "msg" fs).getD .none⟩)) ∧
  (((dictLookup "msg" fs).getD .none).truthy = false →
    (∀ gs : List (String × PyVal), dictLookup "error" fs = some (.dict gs) →
      result = .ok (.failure
        ⟨status, (dictLookup "message" gs).getD (.str "Unknown error")⟩)) ∧
    (dictLookup "error" fs = Option.none →
      result = .ok (.failure ⟨status, .str "Unknown error"⟩)))

/-- The media-type invariant of one mapped entry against its source dict:
the hd link is non-None only for media type `"image"` with an `hdurl`
entry, the video thumbnail only for media type `"video"` with a
`thumbnail_url` entry, and never both. -/
def MediaFieldsContract (fs : List (String × PyVal)) (a : NASAAPOD) : Prop :=
  (a.hd_multimedia_link.isNone = false →
    dictLookup "media_type" fs = some (.str "image")
      ∧ (dictLookup "hdurl" fs).isSome = true) ∧
  (a.video_thumbnail_url.isNone = false →
    dictLookup "media_type" fs = some (.str "video")
      ∧ (dictLookup "thumbnail_url" fs).isSome = true) ∧
  ¬(a.hd_multimedia_link.isNone = false ∧ a.video_thumbnail_url.isNone = false)

/-- The per-field defaulting contract of one mapped entry against its
source dict: each plain field is the corresponding entry when present and
a fixed default when absent; the copyright field defaults to None. -/
def FieldDefaultsContract (fs : List (String × PyVal)) (a : NASAAPOD) : Prop :=
  (∀ v, dictLookup "title" fs = some v → a.apod_title = v) ∧
  (dictLookup "title" fs = Option.none → a.apod_title = .str "Untitled") ∧
  (∀ v, dictLookup "explanation" fs = some v → a.explanation = v) ∧
  (dictLookup "explanation" fs = Option.none → a.explanation = .str "") ∧
  (∀ v, dictLookup "date" fs = some v → a.date = v) ∧
  (dictLookup "date" fs = Option.none → a.date = .str "") ∧
  (∀ v, dictLookup "url" fs = some v → a.multimedia_link = v) ∧
  (dictLookup "url" fs = Option.none → a.multimedia_link = .str "") ∧
  (∀ v, dictLookup "copyright" fs = some v → a.copyright_person_name = v) ∧
  (dictLookup "copyright" fs = Option.none → a.copyright_person_name = .none)

/-- The order-preserving batch contract for an array body `xs`: the result
is a success whose entries are, in order, exactly the mapped items of
`xs`. -/
def BatchContract (xs : List PyVal) (result : Except PyExn APODResult) : Prop :=
  ∃ as : List NASAAPOD,
    result = .ok (.success ⟨as⟩) ∧
    as.length = xs.length ∧
    ∀ (i : Nat) (h1 : i < xs.length) (h2 : i < as.length),
      mapItem (xs.get ⟨i, h1⟩) = .ok (as.get ⟨i, h2⟩)

end NasaApod

namespace NasaApod

/-! ### Computation lemmas about the embedded definitions -/

theorem pyBind_ok {α β : Type} (x : α) (f : α → Except PyExn β) :
    (Except.ok x >>= f) = f x := rfl

theorem pyBind_error {α β : Type} (e : PyExn) (f : α → Except PyExn β) :
    ((Except.error e : Except PyExn α) >>= f) = Except.error e := rfl

theorem get_nasa_apod_eq (opts : QueryOptions)
    (net : List (String × ParamValue) → FetchOutcome) :
    get_nasa_apod opts net =
      match net (get_nasa_apod_params opts) with
      | .exn e =>
          .ok (.failure ⟨INTERNAL_SERVER_ERROR,
            .str ("Failed to connect or parse JSON: " ++ e)⟩)
      | .resp status body => handle_response status body := rfl

theorem hasKey_count_eq (opts : QueryOptions) :
    hasKey "count" (get_nasa_apod_params opts) = pyTruthyOptInt opts.count := by
  cases hc : pyTruthyOptInt opts.count <;>
    cases hd : pyTruthyOptStr opts.apod_date <;>
      cases hs : pyTruthyOptStr opts.start_date <;>
        cases he : pyTruthyOptStr opts.end_date <;>
          simp [get_nasa_apod_params, hasKey, hc, hd, hs, he]

theorem hasKey_date_eq (opts : QueryOptions) :
    hasKey "date" (get_nasa_apod_params opts)
      = (!pyTruthyOptInt opts.count && pyTruthyOptStr opts.apod_date) := by
  cases hc : pyTruthyOptInt opts.count <;>
    cases hd : pyTruthyOptStr opts.apod_date <;>
      cases hs : pyTruthyOptStr opts.start_date <;>
        cases he : pyTruthyOptStr opts.end_date <;>
          simp [get_nasa_apod_params, hasKey, hc, hd, hs, he]

theorem hasKey_start_eq (opts : QueryOptions) :
    hasKey "start_date" (get_nasa_apod_params opts)
      = (!pyTruthyOptInt opts.count && !pyTruthyOptStr opts.apod_date
          && pyTruthyOptStr opts.start_date) := by
  cases hc : pyTruthyOptInt opts.count <;>
    cases hd : pyTruthyOptStr opts.apod_date <;>
      cases hs : pyTruthyOptStr opts.start_date <;>
        cases he : pyTruthyOptStr opts.end_date <;>
          simp [get_nasa_apod_params, hasKey, hc, hd, hs, he]

theorem hasKey_end_eq (opts : QueryOptions) :
    hasKey "end_date" (get_nasa_apod_params opts)
      = (!pyTruthyOptInt opts.count && !pyTruthyOptStr opts.apod_date
          && pyTruthyOptStr opts.start_date && pyTruthyOptStr opts.end_date) := by
  cases hc : pyTruthyOptInt opts.count <;>
    cases hd : pyTruthyOptStr opts.apod_date <;>
      cases hs : pyTruthyOptStr opts.start_date <;>
        cases he : pyTruthyOptStr opts.end_date <;>
          simp [get_nasa_apod_params, hasKey, hc, hd, hs, he]

theorem paramModesExclusive_holds : ParamModesExclusive := by
  intro o
  rw [hasKey_count_eq, hasKey_date_eq, hasKey_start_eq, hasKey_end_eq]
  cases pyTruthyOptInt o.count <;> cases pyTruthyOptStr o.apod_date <;> simp

theorem mapItem_dict (fs : List (String × PyVal)) :
    mapItem (.dict fs) = .ok (mapDictItem fs) := rfl

theorem mapItem_not_dict (b : PyVal) (h : b.isDict = false) :
    mapItem b = .error .attributeError := by
  cases b <;> first | rfl | simp [PyVal.isDict] at h

theorem eqPyStr_true_iff (v : PyVal) (s : String) :
    v.eqPyStr s = true ↔ v = .str s := by
  cases v <;> simp [PyVal.eqPyStr]

theorem isDict_iff (b : PyVal) :
    b.isDict = true ↔ ∃ fs, b = .dict fs := by
  cases b <;> simp [PyVal.isDict]

theorem mapItems_all_dict_ok (xs : List PyVal) (h : xs.all PyVal.isDict = true) :
    ∃ as : List NASAAPOD, mapItems xs = .ok as ∧ as.length = xs.length ∧
      ∀ (i : Nat) (h1 : i < xs.length) (h2 : i < as.length),
        mapItem (xs.get ⟨i, h1⟩) = .ok (as.get ⟨i, h2⟩) := by
  induction xs with
  | nil => exact ⟨[], rfl, rfl, fun i h1 _ => absurd h1 (Nat.not_lt_zero i)⟩
  | cons x rest ih =>
      rw [List.all_cons, Bool.and_eq_true] at h
      obtain ⟨fs, rfl⟩ := (isDict_iff x).mp h.1
      obtain ⟨as, has, hlen, hget⟩ := ih h.2
      refine ⟨mapDictItem fs :: as, ?_, by simp [hlen], ?_⟩
      · show (mapItem (.dict fs) >>= fun a =>
            mapItems rest >>= fun tail => pure (a :: tail)) = _
        rw [mapItem_dict, pyBind_ok, has, pyBind_ok]
        rfl
      · intro i h1 h2
        match i with
        | 0 => exact mapItem_dict fs
        | Nat.succ j =>
            exact hget j (Nat.lt_of_succ_lt_succ h1) (Nat.lt_of_succ_lt_succ h2)

theorem handle_response_200_list (xs : List PyVal) :
    handle_response 200 (.list xs) =
      (mapItems xs >>= fun apods => pure (.success ⟨apods⟩)) := rfl

theorem handle_response_200_dict (fs : List (String × PyVal)) :
    handle_response 200 (.dict fs) = .ok (.success ⟨[mapDictItem fs]⟩) := rfl

theorem handle_response_ne200 (status : Nat) (body : PyVal)
    (hs : status ≠ HTTP_OK) :
    handle_response status body =
      (extract_error_message body >>= fun m => pure (.failure ⟨status, m⟩)) := by
  rw [handle_response, if_pos hs]

theorem extract_error_message_dict (fs : List (String × PyVal)) :
    extract_error_message (.dict fs) =
      (if ((dictLookup "msg" fs).getD PyVal.none).truthy = true
       then Except.ok ((dictLookup "msg" fs).getD PyVal.none)
       else ((dictLookup "error" fs).getD (.dict [])).get "message"
              (.str "Unknown error")) := rfl

theorem msgMatch_eq (fs : List (String × PyVal)) :
    (match dictLookup "msg" fs with
      | some v => v.truthy
      | Option.none => false)
      = ((dictLookup "msg" fs).getD PyVal.none).truthy := by
  cases dictLookup "msg" fs <;> rfl

theorem handle_response_wellShaped_ok (status : Nat) (body : PyVal)
    (h : outcomeWellShaped (.resp status body) = true) :
    ∃ r : APODResult, handle_response status body = .ok r := by
  by_cases hs : status = HTTP_OK
  · subst hs
    cases body with
    | list xs =>
        obtain ⟨as, has, -⟩ := mapItems_all_dict_ok xs h
        refine ⟨.success ⟨as⟩, ?_⟩
        show (mapItems xs >>= fun apods =>
            pure (APODResult.success ⟨apods⟩) : Except PyExn APODResult)
          = Except.ok (APODResult.success ⟨as⟩)
        rw [has, pyBind_ok]
        rfl
    | dict fs => exact ⟨.success ⟨[mapDictItem fs]⟩, rfl⟩
    | none => exact absurd h (by simp [outcomeWellShaped, PyVal.isDict])
    | bool b => exact absurd h (by simp [outcomeWellShaped, PyVal.isDict])
    | int n => exact absurd h (by simp [outcomeWellShaped, PyVal.isDict])
    | str s => exact absurd h (by simp [outcomeWellShaped, PyVal.isDict])
  · cases body with
    | dict fs =>
        replace h :
            ((match dictLookup "msg" fs with
              | some v => v.truthy
              | Option.none => false)
             || (match dictLookup "error" fs with
                 | some (.dict _) => true
                 | Option.none => true
                 | some _ => false)) = true := by
          rw [outcomeWellShaped, if_neg hs] at h
          exact h
        rw [msgMatch_eq] at h
        rw [handle_response_ne200 status (.dict fs) hs, extract_error_message_dict]
        by_cases hm : ((dictLookup "msg" fs).getD PyVal.none).truthy = true
        · rw [if_pos hm, pyBind_ok]; exact ⟨_, rfl⟩
        · rw [if_neg hm]
          rw [Bool.eq_false_iff.mpr hm, Bool.false_or] at h
          rcases he : dictLookup "error" fs with - | ev
          · exact ⟨.failure ⟨status, .str "Unknown error"⟩, rfl⟩
          · rw [he] at h
            rcases ev with - | b | n | s2 | xs | gs
            · exact absurd h Bool.false_ne_true
            · exact absurd h Bool.false_ne_true
            · exact absurd h Bool.false_ne_true
            · exact absurd h Bool.false_ne_true
            · exact absurd h Bool.false_ne_true
            · exact ⟨.failure
                ⟨status, (dictLookup "message" gs).getD (.str "Unknown error")⟩, rfl⟩
    | none => exact absurd h (by simp [outcomeWellShaped, hs])
    | bool b => exact absurd h (by simp [outcomeWellShaped, hs])
    | int n => exact absurd h (by simp [outcomeWellShaped, hs])
    | str s => exact absurd h (by simp [outcomeWellShaped, hs])
    | list xs => exact absurd h (by simp [outcomeWellShaped, hs])

end NasaApod

namespace NasaApod

/-! ### Claim theorems -/

/-- Counterexample for C1: with `count` set to `0` (set, but falsy in
Python) and a date also supplied, the parameter dict omits `count` and
carries `date` instead, contradicting the claim as stated. -/
theorem params_count_set_cex :
    ((⟨"k", some "2026-01-18", Option.none, Option.none, some 0, false⟩ :
        QueryOptions).count).isSome = true ∧
    hasKey "count" (get_nasa_apod_params
      ⟨"k", some "2026-01-18", Option.none, Option.none, some 0, false⟩) = false ∧
    hasKey "date" (get_nasa_apod_params
      ⟨"k", some "2026-01-18", Option.none, Option.none, some 0, false⟩) = true :=
  ⟨rfl, rfl, rfl⟩

/-- C1 (amended): for every QueryOptions whose `count` is set to a truthy
(non-zero) value, the outbound parameter dict contains `count` and none of
`date`, `start_date`, `end_date`, regardless of the other options; and in
general no two conflicting mode keys ever appear together. -/
theorem params_count_mode_precedence (opts : QueryOptions)
    (h : pyTruthyOptInt opts.count = true) :
    hasKey "count" (get_nasa_apod_params opts) = true ∧
    hasKey "date" (get_nasa_apod_params opts) = false ∧
    hasKey "start_date" (get_nasa_apod_params opts) = false ∧
    hasKey "end_date" (get_nasa_apod_params opts) = false ∧
    ParamModesExclusive := by
  refine ⟨by rw [hasKey_count_eq, h], by rw [hasKey_date_eq, h]; rfl,
    by rw [hasKey_start_eq, h]; rfl, by rw [hasKey_end_eq, h]; rfl,
    paramModesExclusive_holds⟩

/-- Witness for C1 at a concrete QueryOptions with every option set. -/
theorem params_count_mode_precedence_wit :
    pyTruthyOptInt ((⟨"k", some "2026-01-18", some "2026-01-01",
        some "2026-01-02", some 5, true⟩ : QueryOptions).count) = true ∧
    (hasKey "count" (get_nasa_apod_params
        ⟨"k", some "2026-01-18", some "2026-01-01", some "2026-01-02", some 5, true⟩)
        = true ∧
      hasKey "date" (get_nasa_apod_params
        ⟨"k", some "2026-01-18", some "2026-01-01", some "2026-01-02", some 5, true⟩)
        = false ∧
      hasKey "start_date" (get_nasa_apod_params
        ⟨"k", some "2026-01-18", some "2026-01-01", some "2026-01-02", some 5, true⟩)
        = false ∧
      hasKey "end_date" (get_nasa_apod_params
        ⟨"k", some "2026-01-18", some "2026-01-01", some "2026-01-02", some 5, true⟩)
        = false ∧
      ParamModesExclusive) :=
  ⟨rfl, params_count_mode_precedence _ rfl⟩

/-- Counterexample for C2: a non-200 response whose JSON body is an array
makes `json_response.get("msg")` raise `AttributeError`, which escapes
`get_nasa_apod` instead of being returned as a value. -/
theorem client_boundary_exception_cex :
    get_nasa_apod ⟨"DEMO_KEY", Option.none, Option.none, Option.none, Option.none, false⟩
      (fun _ => .resp 500 (.list [])) = .error .attributeError := rfl

/-- C2 (amended): for every QueryOptions and every upstream outcome whose
body is well shaped (any exception, or on 200 a dict / list of dicts, or on
non-200 a dict with a truthy `msg` or an absent-or-dict `error` entry),
`get_nasa_apod` returns a value of the declared union and raises nothing. -/
theorem get_nasa_apod_wellShaped_total (opts : QueryOptions)
    (net : List (String × ParamValue) → FetchOutcome)
    (h : outcomeWellShaped (net (get_nasa_apod_params opts)) = true) :
    ∃ r : APODResult, get_nasa_apod opts net = .ok r := by
  rcases hn : net (get_nasa_apod_params opts) with e | ⟨status, body⟩
  · exact ⟨.failure ⟨INTERNAL_SERVER_ERROR,
      .str ("Failed to connect or parse JSON: " ++ e)⟩,
      by rw [get_nasa_apod_eq, hn]⟩
  · rw [hn] at h
    obtain ⟨r, hr⟩ := handle_response_wellShaped_ok status body h
    exact ⟨r, by rw [get_nasa_apod_eq, hn]; exact hr⟩

/-- Witness for C2 at a 200 response with an empty-dict body. -/
theorem get_nasa_apod_wellShaped_total_wit :
    outcomeWellShaped ((fun _ => FetchOutcome.resp 200 (.dict []))
      (get_nasa_apod_params
        ⟨"DEMO_KEY", Option.none, Option.none, Option.none, Option.none, true⟩))
      = true ∧
    ∃ r : APODResult,
      get_nasa_apod ⟨"DEMO_KEY", Option.none, Option.none, Option.none, Option.none, true⟩
        (fun _ => .resp 200 (.dict [])) = .ok r :=
  ⟨rfl, get_nasa_apod_wellShaped_total _ _ rfl⟩

/-- Counterexample for C3: a `msg` field that is present but falsy (the
empty string) is skipped by `or`, so the message falls through to
`"Unknown error"` instead of the present `msg` value. -/
theorem error_msg_falsy_cex :
    dictLookup "msg" [("msg", PyVal.str "")] = some (.str "") ∧
    get_nasa_apod ⟨"k", Option.none, Option.none, Option.none, Option.none, false⟩
      (fun _ => .resp 404 (.dict [("msg", .str "")])) =
      .ok (.failure ⟨404, .str "Unknown error"⟩) :=
  ⟨rfl, rfl⟩

/-- C3 (amended): on a non-200 response with a dict body, the result is an
ErrorDetails carrying the upstream status code, whose message is the `msg`
entry when that entry is truthy, else the `error.message` entry when the
`error` entry is a dict, else the fixed `"Unknown error"` (also when
`error` is absent). -/
theorem error_msg_extraction (opts : QueryOptions)
    (net : List (String × ParamValue) → FetchOutcome)
    (status : Nat) (fs : List (String × PyVal))
    (hresp : net (get_nasa_apod_params opts) = .resp status (.dict fs))
    (hs : status ≠ HTTP_OK) :
    ErrorShapeContract status fs (get_nasa_apod opts net) := by
  have hval : get_nasa_apod opts net
      = (extract_error_message (.dict fs) >>= fun m =>
          pure (.failure ⟨status, m⟩)) := by
    rw [get_nasa_apod_eq, hresp]
    exact handle_response_ne200 status (.dict fs) hs
  rw [ErrorShapeContract, hval, extract_error_message_dict]
  constructor
  · intro hm
    rw [if_pos hm, pyBind_ok]
    rfl
  · intro hm
    rw [if_neg (by rw [hm]; exact Bool.false_ne_true)]
    constructor
    · intro gs hgs
      rw [hgs]
      rfl
    · intro hnone
      rw [hnone]
      rfl

/-- Witness for C3: the spec's 429 rate-limit example, message extracted
from the nested `error.message` field. -/
theorem error_msg_extraction_wit :
    (429 : Nat) ≠ HTTP_OK ∧
    ErrorShapeContract 429 [("error", PyVal.dict [("message", PyVal.str "rate limited")])]
      (get_nasa_apod ⟨"k", Option.none, Option.none, Option.none, Option.none, false⟩
        (fun _ => .resp 429
          (.dict [("error", .dict [("message", .str "rate limited")])]))) ∧
    get_nasa_apod ⟨"k", Option.none, Option.none, Option.none, Option.none, false⟩
      (fun _ => .resp 429 (.dict [("error", .dict [("message", .str "rate limited")])]))
      = .ok (.failure ⟨429, .str "rate limited"⟩) := by
  refine ⟨by decide, error_msg_extraction _ _ _ _ rfl (by decide), ?_⟩
  have h := error_msg_extraction
    ⟨"k", Option.none, Option.none, Option.none, Option.none, false⟩
    (fun _ => .resp 429 (.dict [("error", .dict [("message", .str "rate limited")])]))
    429 [("error", PyVal.dict [("message", PyVal.str "rate limited")])]
    rfl (by decide)
  exact (h.2 rfl).1 [("message", PyVal.str "rate limited")] rfl

end NasaApod

namespace NasaApod

theorem mediaFieldAnalysis (fs : List (String × PyVal)) (key mtype : String)
    (h : (if ((dictLookup "media_type" fs).getD PyVal.none).eqPyStr mtype = true
          then (dictLookup key fs).getD PyVal.none
          else PyVal.none).isNone = false) :
    dictLookup "media_type" fs = some (.str mtype)
      ∧ (dictLookup key fs).isSome = true := by
  by_cases hc : ((dictLookup "media_type" fs).getD PyVal.none).eqPyStr mtype = true
  · rw [if_pos hc] at h
    have hmt := (eqPyStr_true_iff _ _).mp hc
    constructor
    · rcases hml : dictLookup "media_type" fs with - | v
      · rw [hml] at hmt
        exact absurd hmt (by simp)
      · rw [hml] at hmt
        exact congrArg some hmt
    · rcases hk : dictLookup key fs with - | v
      · rw [hk] at h
        exact absurd h (by simp [PyVal.isNone])
      · rfl
  · rw [if_neg hc] at h
    exact absurd h (by simp [PyVal.isNone])

/-- C4: every entry the mapper produces comes from a dict item, its hd link
is non-None only for media type `"image"` with an `hdurl` entry, its video
thumbnail is non-None only for media type `"video"` with a `thumbnail_url`
entry, and the two are never non-None together. -/
theorem media_fields_invariant (item : PyVal) (a : NASAAPOD)
    (h : mapItem item = .ok a) :
    ∃ fs, item = .dict fs ∧ MediaFieldsContract fs a := by
  rcases item with - | b | n | s | xs | fs
  · rw [mapItem_not_dict PyVal.none rfl] at h; exact Except.noConfusion h
  · rw [mapItem_not_dict (.bool b) rfl] at h; exact Except.noConfusion h
  · rw [mapItem_not_dict (.int n) rfl] at h; exact Except.noConfusion h
  · rw [mapItem_not_dict (.str s) rfl] at h; exact Except.noConfusion h
  · rw [mapItem_not_dict (.list xs) rfl] at h; exact Except.noConfusion h
  · refine ⟨fs, rfl, ?_⟩
    rw [mapItem_dict] at h
    injection h with h
    subst h
    refine ⟨fun hhd => mediaFieldAnalysis fs "hdurl" "image" hhd,
      fun hth => mediaFieldAnalysis fs "thumbnail_url" "video" hth, ?_⟩
    rintro ⟨h1, h2⟩
    have e1 := (mediaFieldAnalysis fs "hdurl" "image" h1).1
    have e2 := (mediaFieldAnalysis fs "thumbnail_url" "video" h2).1
    rw [e1] at e2
    have := Option.some.inj e2
    exact absurd this (by simp)

/-- Witness for C4: the spec's image example maps to an entry with the hd
link populated and the video thumbnail None. -/
theorem media_fields_invariant_wit :
    mapItem (.dict [("title", PyVal.str "X"), ("date", PyVal.str "2026-01-18"),
        ("url", PyVal.str "http://u"), ("media_type", PyVal.str "image"),
        ("hdurl", PyVal.str "http://h")]) =
      .ok ⟨.str "X", .str "", .str "2026-01-18", .str "http://u",
        .str "http://h", .none, .none⟩ ∧
    ∃ fs, PyVal.dict [("title", PyVal.str "X"), ("date", PyVal.str "2026-01-18"),
        ("url", PyVal.str "http://u"), ("media_type", PyVal.str "image"),
        ("hdurl", PyVal.str "http://h")] = .dict fs ∧
      MediaFieldsContract fs ⟨.str "X", .str "", .str "2026-01-18", .str "http://u",
        .str "http://h", .none, .none⟩ :=
  ⟨rfl, media_fields_invariant _ _ rfl⟩

/-- C5: on a 200 response, an array body of dicts yields a success batch of
the same length with entry i the mapping of array element i, and a single
dict body yields the one-entry batch of its mapping. -/
theorem batch_normalization (opts : QueryOptions)
    (net : List (String × ParamValue) → FetchOutcome) :
    (∀ xs : List PyVal,
      net (get_nasa_apod_params opts) = .resp 200 (.list xs) →
      xs.all PyVal.isDict = true →
      BatchContract xs (get_nasa_apod opts net)) ∧
    (∀ fs : List (String × PyVal),
      net (get_nasa_apod_params opts) = .resp 200 (.dict fs) →
      mapItem (.dict fs) = .ok (mapDictItem fs) ∧
      get_nasa_apod opts net = .ok (.success ⟨[mapDictItem fs]⟩)) := by
  constructor
  · intro xs hn hx
    obtain ⟨as, has, hlen, hget⟩ := mapItems_all_dict_ok xs hx
    refine ⟨as, ?_, hlen, hget⟩
    rw [get_nasa_apod_eq, hn]
    show (mapItems xs >>= fun apods =>
        pure (APODResult.success ⟨apods⟩) : Except PyExn APODResult)
      = Except.ok (APODResult.success ⟨as⟩)
    rw [has, pyBind_ok]
    rfl
  · intro fs hn
    refine ⟨mapItem_dict fs, ?_⟩
    rw [get_nasa_apod_eq, hn]
    exact handle_response_200_dict fs

/-- Witness for C5 at a two-element array body. -/
theorem batch_normalization_wit :
    ((fun _ => FetchOutcome.resp 200 (.list
        [PyVal.dict [("media_type", PyVal.str "image")], PyVal.dict []]))
      (get_nasa_apod_params
        ⟨"k", Option.none, Option.none, Option.none, Option.none, false⟩)
      = .resp 200 (.list
        [PyVal.dict [("media_type", PyVal.str "image")], PyVal.dict []])) ∧
    ([PyVal.dict [("media_type", PyVal.str "image")], PyVal.dict []].all
      PyVal.isDict = true) ∧
    BatchContract [PyVal.dict [("media_type", PyVal.str "image")], PyVal.dict []]
      (get_nasa_apod ⟨"k", Option.none, Option.none, Option.none, Option.none, false⟩
        (fun _ => .resp 200 (.list
          [PyVal.dict [("media_type", PyVal.str "image")], PyVal.dict []]))) :=
  ⟨rfl, rfl, (batch_normalization _ _).1 _ rfl rfl⟩

/-- C6: whenever the HTTP GET or the JSON parse raises, the result is an
ErrorDetails with the internal-error sentinel status and a message carrying
the exception description. -/
theorem transport_failure_error (opts : QueryOptions)
    (net : List (String × ParamValue) → FetchOutcome) (e : String)
    (h : net (get_nasa_apod_params opts) = .exn e) :
    ∃ ed : ErrorDetails, get_nasa_apod opts net = .ok (.failure ed) ∧
      ed.status_code = INTERNAL_SERVER_ERROR ∧
      ed.message = .str ("Failed to connect or parse JSON: " ++ e) := by
  refine ⟨⟨INTERNAL_SERVER_ERROR, .str ("Failed to connect or parse JSON: " ++ e)⟩,
    ?_, rfl, rfl⟩
  rw [get_nasa_apod_eq, h]

/-- Witness for C6 at a simulated connection timeout. -/
theorem transport_failure_error_wit :
    ((fun _ => FetchOutcome.exn "Connection timed out")
        (get_nasa_apod_params
          ⟨"k", Option.none, Option.none, Option.none, Option.none, false⟩)
      = FetchOutcome.exn "Connection timed out") ∧
    ∃ ed : ErrorDetails,
      get_nasa_apod ⟨"k", Option.none, Option.none, Option.none, Option.none, false⟩
        (fun _ => .exn "Connection timed out") = .ok (.failure ed) ∧
      ed.status_code = INTERNAL_SERVER_ERROR ∧
      ed.message = .str ("Failed to connect or parse JSON: " ++ "Connection timed out") :=
  ⟨rfl, transport_failure_error _ _ _ rfl⟩

/-- Counterexample for C7: `start_date` set to the empty string (set, but
falsy in Python) is dropped entirely, so the request does not contain
`start_date` even though it is set and no count or single date is set. -/
theorem params_start_date_set_cex :
    ((⟨"k", Option.none, some "", some "2026-01-02", Option.none, true⟩ :
        QueryOptions).start_date).isSome = true ∧
    hasKey "start_date" (get_nasa_apod_params
      ⟨"k", Option.none, some "", some "2026-01-02", Option.none, true⟩) = false ∧
    hasKey "end_date" (get_nasa_apod_params
      ⟨"k", Option.none, some "", some "2026-01-02", Option.none, true⟩) = false :=
  ⟨rfl, rfl, rfl⟩

/-- C7 (amended): with `count` and `apod_date` falsy, a truthy `start_date`
is sent and `end_date` is sent exactly when it is truthy; a falsy
`start_date` suppresses every date-related key, even when `end_date` is
provided. -/
theorem params_range_mode (opts : QueryOptions)
    (hc : pyTruthyOptInt opts.count = false)
    (hd : pyTruthyOptStr opts.apod_date = false) :
    (pyTruthyOptStr opts.start_date = true →
      hasKey "start_date" (get_nasa_apod_params opts) = true ∧
      hasKey "end_date" (get_nasa_apod_params opts) = pyTruthyOptStr opts.end_date) ∧
    (pyTruthyOptStr opts.start_date = false →
      hasKey "date" (get_nasa_apod_params opts) = false ∧
      hasKey "start_date" (get_nasa_apod_params opts) = false ∧
      hasKey "end_date" (get_nasa_apod_params opts) = false) := by
  constructor
  · intro hsd
    constructor
    · rw [hasKey_start_eq, hc, hd, hsd]; rfl
    · rw [hasKey_end_eq, hc, hd, hsd]; rfl
  · intro hsd
    refine ⟨?_, ?_, ?_⟩
    · rw [hasKey_date_eq, hc, hd]; rfl
    · rw [hasKey_start_eq, hc, hd, hsd]; rfl
    · rw [hasKey_end_eq, hc, hd, hsd]; rfl

/-- Witness for C7 at a QueryOptions with only a start date. -/
theorem params_range_mode_wit :
    pyTruthyOptInt ((⟨"k", Option.none, some "2026-01-01", Option.none, Option.none,
        false⟩ : QueryOptions).count) = false ∧
    pyTruthyOptStr ((⟨"k", Option.none, some "2026-01-01", Option.none, Option.none,
        false⟩ : QueryOptions).apod_date) = false ∧
    ((pyTruthyOptStr ((⟨"k", Option.none, some "2026-01-01", Option.none, Option.none,
        false⟩ : QueryOptions).start_date) = true →
      hasKey "start_date" (get_nasa_apod_params
        ⟨"k", Option.none, some "2026-01-01", Option.none, Option.none, false⟩) = true ∧
      hasKey "end_date" (get_nasa_apod_params
        ⟨"k", Option.none, some "2026-01-01", Option.none, Option.none, false⟩)
        = pyTruthyOptStr ((⟨"k", Option.none, some "2026-01-01", Option.none,
            Option.none, false⟩ : QueryOptions).end_date)) ∧
    (pyTruthyOptStr ((⟨"k", Option.none, some "2026-01-01", Option.none, Option.none,
        false⟩ : QueryOptions).start_date) = false →
      hasKey "date" (get_nasa_apod_params
        ⟨"k", Option.none, some "2026-01-01", Option.none, Option.none, false⟩) = false ∧
      hasKey "start_date" (get_nasa_apod_params
        ⟨"k", Option.none, some "2026-01-01", Option.none, Option.none, false⟩) = false ∧
      hasKey "end_date" (get_nasa_apod_params
        ⟨"k", Option.none, some "2026-01-01", Option.none, Option.none, false⟩) = false)) :=
  ⟨rfl, rfl, params_range_mode _ rfl rfl⟩

/-- C8: every outbound request carries `api_key` and `thumbs` with the
caller-supplied values, in every mode. -/
theorem params_always_api_key_thumbs (opts : QueryOptions) :
    getParam "api_key" (get_nasa_apod_params opts) = some (.str opts.api_key) ∧
    getParam "thumbs" (get_nasa_apod_params opts) = some (.bool opts.thumbs) ∧
    hasKey "api_key" (get_nasa_apod_params opts) = true ∧
    hasKey "thumbs" (get_nasa_apod_params opts) = true :=
  ⟨rfl, rfl, rfl, rfl⟩

/-- C9: each mapped field is the source entry when present, and otherwise
its fixed default ("Untitled" for the title, empty string for explanation,
date and url, None for the copyright holder). -/
theorem field_defaults (fs : List (String × PyVal)) (a : NASAAPOD)
    (h : mapItem (.dict fs) = .ok a) :
    FieldDefaultsContract fs a := by
  rw [mapItem_dict] at h
  injection h with h
  subst h
  refine ⟨fun v hv => ?_, fun hn => ?_, fun v hv => ?_, fun hn => ?_,
    fun v hv => ?_, fun hn => ?_, fun v hv => ?_, fun hn => ?_,
    fun v hv => ?_, fun hn => ?_⟩ <;>
    simp [mapDictItem, *]

/-- Witness for C9 at an item with only title and copyright present. -/
theorem field_defaults_wit :
    mapItem (.dict [("title", PyVal.str "X"), ("copyright", PyVal.str "P")]) =
      .ok ⟨.str "X", .str "", .str "", .str "", .none, .none, .str "P"⟩ ∧
    FieldDefaultsContract [("title", PyVal.str "X"), ("copyright", PyVal.str "P")]
      ⟨.str "X", .str "", .str "", .str "", .none, .none, .str "P"⟩ :=
  ⟨rfl, field_defaults _ _ rfl⟩

/-- C10: the internal-error sentinel used on the transport/parse failure
path is the literal status code 500. -/
theorem internal_sentinel_500 (opts : QueryOptions)
    (net : List (String × ParamValue) → FetchOutcome) (e : String)
    (h : net (get_nasa_apod_params opts) = .exn e) :
    INTERNAL_SERVER_ERROR = 500 ∧
    ∃ msg : PyVal, get_nasa_apod opts net = .ok (.failure ⟨500, msg⟩) := by
  refine ⟨rfl, ⟨.str ("Failed to connect or parse JSON: " ++ e), ?_⟩⟩
  rw [get_nasa_apod_eq, h]
  rfl

/-- Witness for C10 at a simulated read timeout. -/
theorem internal_sentinel_500_wit :
    ((fun _ => FetchOutcome.exn "read timeout")
        (get_nasa_apod_params
          ⟨"k", Option.none, Option.none, Option.none, Option.none, true⟩)
      = FetchOutcome.exn "read timeout") ∧
    (INTERNAL_SERVER_ERROR = 500 ∧
      ∃ msg : PyVal,
        get_nasa_apod ⟨"k", Option.none, Option.none, Option.none, Option.none, true⟩
          (fun _ => .exn "read timeout") = .ok (.failure ⟨500, msg⟩)) :=
  ⟨rfl, internal_sentinel_500 _ _ _ rfl⟩

end NasaApod
